import Mathlib

/-!
Shallow embedding of the GUI event-dispatch and control-lifecycle subsystem
of the winsafe binding crate, with the registry-key guard. Definitions are
translated from the Rust source files:

* `src/gui/native_controls/native_control_base.rs` — control base,
  subclass installation, subclass dispatcher;
* `src/gui/events.rs` — the event table `Events` and its typed
  registration operations;
* `src/gui/dialog_modal.rs` — the modal dialog host's default handlers;
* `src/gui/controls/edit.rs` — the `Edit` control's registration surface;
* `src/advapi/guard.rs` — the `HkeyGuard` releaser.

Handles are pointer-sized integers; the null handle is 0. Panics are
modelled as `Except.error`; OS calls issued by the code under scrutiny
are recorded in an explicit trace.
-/

namespace Winsafe

/-! ### Message-id constants

Numeric values of the `co::WM` message-id constants, the dialog class atom
`WC_DIALOG` and the dialog result id `DLGID::CANCEL`. The modules defining
them (`co`, `privs`) are not part of the sampled source; the values are the
documented OS constants named by the spec. -/

/-- Modelled from the spec: `co::WM::NCDESTROY` (documented OS value 0x0082). -/
def WM_NCDESTROY : Nat := 0x0082

/-- Modelled from the spec: `co::WM::CLOSE` (documented OS value 0x0010). -/
def WM_CLOSE : Nat := 0x0010

/-- Modelled from the spec: `co::WM::INITDIALOG` (documented OS value 0x0110). -/
def WM_INITDIALOG : Nat := 0x0110

/-- Modelled from the spec: `co::WM::NULL` (documented OS value 0x0000). -/
def WM_NULL : Nat := 0x0000

/-- Modelled from the spec: `co::WM::CREATE` (documented OS value 0x0001). -/
def WM_CREATE : Nat := 0x0001

/-- Modelled from the spec: `co::WM::DESTROY` (documented OS value 0x0002). -/
def WM_DESTROY : Nat := 0x0002

/-- Modelled from the spec: `co::WM::SIZE` (documented OS value 0x0005). -/
def WM_SIZE : Nat := 0x0005

/-- Modelled from the spec: `co::WM::ACTIVATE` (documented OS value 0x0006). -/
def WM_ACTIVATE : Nat := 0x0006

/-- Modelled from the spec: `co::WM::ACTIVATEAPP` (documented OS value 0x001C). -/
def WM_ACTIVATEAPP : Nat := 0x001C

/-- Modelled from the spec: `co::WM::COMMAND` (documented OS value 0x0111). -/
def WM_COMMAND : Nat := 0x0111

/-- Modelled from the spec: `co::WM::NOTIFY` (documented OS value 0x004E). -/
def WM_NOTIFY : Nat := 0x004E

/-- Modelled from the spec: `co::WM::DROPFILES` (documented OS value 0x0233). -/
def WM_DROPFILES : Nat := 0x0233

/-- Modelled from the spec: `co::WM::INITMENUPOPUP` (documented OS value 0x0117). -/
def WM_INITMENUPOPUP : Nat := 0x0117

/-- Modelled from the spec: `co::WM::SIZING` (documented OS value 0x0214). -/
def WM_SIZING : Nat := 0x0214

/-- Modelled from the spec: `co::WM::CTLCOLORBTN` (documented OS value 0x0135). -/
def WM_CTLCOLORBTN : Nat := 0x0135

/-- Modelled from the spec: `co::WM::CTLCOLORDLG` (documented OS value 0x0136). -/
def WM_CTLCOLORDLG : Nat := 0x0136

/-- Modelled from the spec: `co::WM::CTLCOLOREDIT` (documented OS value 0x0133). -/
def WM_CTLCOLOREDIT : Nat := 0x0133

/-- Modelled from the spec: `co::WM::CTLCOLORLISTBOX` (documented OS value 0x0134). -/
def WM_CTLCOLORLISTBOX : Nat := 0x0134

/-- Modelled from the spec: `co::WM::CTLCOLORSCROLLBAR` (documented OS value 0x0137). -/
def WM_CTLCOLORSCROLLBAR : Nat := 0x0137

/-- Modelled from the spec: `co::WM::CTLCOLORSTATIC` (documented OS value 0x0138). -/
def WM_CTLCOLORSTATIC : Nat := 0x0138

/-- Modelled from the spec: `privs::WC_DIALOG`, the dialog class atom
sentinel (documented OS value 0x8002). -/
def WC_DIALOG : Nat := 0x8002

/-- Modelled from the spec: `co::DLGID::CANCEL = 2`. -/
def DLGID_CANCEL : Nat := 2

/-! ### Raw message tuple and process result

`Wm` is the raw message struct built by the subclass dispatcher in
`native_control_base.rs`: `Wm { msg_id: msg, wparam, lparam }`.
`ProcessResult` mirrors `gui::events::ProcessResult`. -/

/-- The raw `(id, wparam, lparam)` message tuple (`msg::Wm` as used by
`NativeControlBase::subclass_proc`). -/
structure Wm where
  msg_id : Nat
  wparam : Nat
  lparam : Int
  deriving DecidableEq, Repr

/-- Outcome of running an event table on a message
(`gui::events::ProcessResult`). -/
inductive ProcessResult where
  | handledWithRet (ret : Int)
  | handledWithoutRet
  | notHandled
  deriving DecidableEq, Repr

/-- OS entry points invoked by the embedded code, recorded as a trace. -/
inductive OsCall where
  /-- The subclass event table's `process_effective_message` was run. -/
  | processEffective (m : Wm)
  /-- `RemoveWindowSubclass(subclass_proc, subclass_id)` on window `hwnd`;
  the function pointer removed is always the dispatcher itself. -/
  | removeWindowSubclass (hwnd : Nat) (subclass_id : Nat)
  /-- `DefSubclassProc` forwarded the message. -/
  | defSubclassProc (hwnd : Nat) (m : Wm)
  /-- `SetWindowSubclass(subclass_proc, subclass_id, ref_data)` on `hwnd`. -/
  | setWindowSubclass (hwnd : Nat) (subclass_id : Nat) (ref_data : Nat)
  /-- `GetDlgItem(ctrl_id)` queried on the parent window. -/
  | getDlgItem (parent : Nat) (ctrl_id : Nat)
  /-- `GetClassLongPtr(GCLP::ATOM)` queried on the parent window. -/
  | getClassLongPtrAtom (parent : Nat)
  /-- `RegCloseKey` on a registry handle. -/
  | regCloseKey (hkey : Nat)
  /-- `EndDialog(res)` ending a modal loop. -/
  | endDialog (hwnd : Nat) (res : Int)
  /-- `SetWindowPos` issued by `center_in_parent`. -/
  | centerInParent (hwnd : Nat)
  deriving DecidableEq, Repr

/-! ### Subclass dispatcher (`NativeControlBase::subclass_proc`)

The dispatcher receives `(hwnd, msg, wparam, lparam, subclass_id,
ref_data)`. `ref_data` carries a pointer to the control object; a null
pointer is `none`, a valid one is `some` of the control's relevant state:
its stored handle plus its subclass event table. The table's
`process_effective_message` (whose defining module is not in the sampled
source) is carried as the abstract function `subclass_events`. -/

/-- The control state recovered from the dispatcher's ref-data word:
the stored window handle and the subclass event table, the latter as its
`process_effective_message` behaviour. -/
structure SubclassSelf where
  hwnd : Nat
  subclass_events : Wm → ProcessResult

/-- `NativeControlBase::subclass_proc`, translated from
`native_control_base.rs` lines 158–182. `defSubclassProcFn` models the OS's
`DefSubclassProc`. Returns the dispatcher's reply word and the trace of OS
calls it issued, in order. -/
def subclass_proc (defSubclassProcFn : Nat → Wm → Int)
    (hwnd : Nat) (msg : Nat) (wparam : Nat) (lparam : Int)
    (subclass_id : Nat) (ref_data : Option SubclassSelf) :
    Int × List OsCall :=
  let wm_any : Wm := { msg_id := msg, wparam := wparam, lparam := lparam }
  let step1 : ProcessResult × List OsCall :=
    match ref_data with
    | none => (ProcessResult.notHandled, [])
    | some ref_self =>
        if ref_self.hwnd ≠ 0 then
          (ref_self.subclass_events wm_any, [OsCall.processEffective wm_any])
        else
          (ProcessResult.notHandled, [])
  let maybe_processed := step1.1
  let trace1 :=
    if msg = WM_NCDESTROY then
      step1.2 ++ [OsCall.removeWindowSubclass hwnd subclass_id]
    else
      step1.2
  match maybe_processed with
  | ProcessResult.handledWithRet res => (res, trace1)
  | ProcessResult.handledWithoutRet => (0, trace1)
  | ProcessResult.notHandled =>
      (defSubclassProcFn hwnd wm_any, trace1 ++ [OsCall.defSubclassProc hwnd wm_any])

/-! ### Theorems on the subclass dispatcher -/

/-- C1: for every message delivery, the subclass event table is consulted
exactly when both the recovered control pointer and the control's stored
handle are non-null; and the dispatcher's return is the handler's word on
`HandledWithRet`, `0` on `HandledWithoutRet`, `DefSubclassProc` on the same
`(id, wparam, lparam)` tuple on `NotHandled`, with `DefSubclassProc` also
being the reply whenever the table was not consulted. -/
theorem subclass_proc_dispatch (dsp : Nat → Wm → Int)
    (hwnd msg wparam : Nat) (lparam : Int) (subclass_id : Nat)
    (ref_data : Option SubclassSelf) :
    (OsCall.processEffective ⟨msg, wparam, lparam⟩ ∈
        (subclass_proc dsp hwnd msg wparam lparam subclass_id ref_data).2 ↔
      ∃ s, ref_data = some s ∧ s.hwnd ≠ 0) ∧
    (∀ s, ref_data = some s → s.hwnd ≠ 0 →
      (subclass_proc dsp hwnd msg wparam lparam subclass_id ref_data).1 =
        match s.subclass_events ⟨msg, wparam, lparam⟩ with
        | ProcessResult.handledWithRet w => w
        | ProcessResult.handledWithoutRet => 0
        | ProcessResult.notHandled => dsp hwnd ⟨msg, wparam, lparam⟩) ∧
    ((ref_data = none ∨ ∃ s, ref_data = some s ∧ s.hwnd = 0) →
      (subclass_proc dsp hwnd msg wparam lparam subclass_id ref_data).1 =
        dsp hwnd ⟨msg, wparam, lparam⟩) := by
  unfold subclass_proc
  refine ⟨?_, ?_, ?_⟩
  · cases ref_data with
    | none =>
        simp only [ne_eq]
        constructor
        · intro hmem
          exfalso
          rcases Decidable.em (msg = WM_NCDESTROY) with h | h <;>
            simp [h] at hmem
        · rintro ⟨s, hs, -⟩; cases hs
    | some s =>
        by_cases hh : s.hwnd = 0
        · simp only [hh, ne_eq, not_true_eq_false, if_false]
          constructor
          · intro hmem
            exfalso
            rcases Decidable.em (msg = WM_NCDESTROY) with h | h <;>
              simp [h] at hmem
          · rintro ⟨t, ht, hne⟩
            cases ht
            exact absurd hh hne
        · simp only [hh, ne_eq, not_false_eq_true, if_true]
          constructor
          · intro _
            exact ⟨s, rfl, hh⟩
          · intro _
            rcases Decidable.em (msg = WM_NCDESTROY) with h | h <;>
              cases hr : s.subclass_events ⟨msg, wparam, lparam⟩ <;>
                simp [h, hr]
  · rintro s rfl hne
    simp only [ne_eq, hne, not_false_eq_true, if_true]
    cases hr : s.subclass_events ⟨msg, wparam, lparam⟩ <;> simp [hr]
  · rintro (rfl | ⟨s, rfl, hz⟩)
    · simp
    · simp [hz]

/-- Witness for `subclass_proc_dispatch` at a concrete input: a non-null
pointer to a control with non-null handle whose table yields
`HandledWithRet 7` makes the dispatcher reply 7. -/
theorem subclass_proc_dispatch_witness :
    (subclass_proc (fun _ _ => 42) 9 WM_SIZE 0 0 1
        (some ⟨5, fun _ => ProcessResult.handledWithRet 7⟩)).1 = 7 := by
  have h := (subclass_proc_dispatch (fun _ _ => 42) 9 WM_SIZE 0 0 1
      (some ⟨5, fun _ => ProcessResult.handledWithRet 7⟩)).2.1
      ⟨5, fun _ => ProcessResult.handledWithRet 7⟩ rfl (by decide)
  simpa using h

/-- C2: whenever the dispatcher receives `NCDESTROY`, it records a
`RemoveWindowSubclass` call (of the dispatcher itself) with the same
subclass id it was invoked with, for every pointer state and every event
table — and for no other message id. -/
theorem subclass_proc_ncdestroy_uninstall (dsp : Nat → Wm → Int)
    (hwnd msg wparam : Nat) (lparam : Int) (subclass_id : Nat)
    (ref_data : Option SubclassSelf) :
    OsCall.removeWindowSubclass hwnd subclass_id ∈
        (subclass_proc dsp hwnd msg wparam lparam subclass_id ref_data).2 ↔
      msg = WM_NCDESTROY := by
  unfold subclass_proc
  constructor
  · intro hmem
    by_contra hne
    cases ref_data with
    | none => simp [hne] at hmem
    | some s =>
        by_cases hh : s.hwnd = 0
        · simp [hne, hh] at hmem
        · cases hr : s.subclass_events ⟨msg, wparam, lparam⟩ <;>
            simp [hne, hh, hr] at hmem
  · rintro rfl
    cases ref_data with
    | none => simp
    | some s =>
        by_cases hh : s.hwnd = 0
        · simp [hh]
        · cases hr : s.subclass_events ⟨WM_NCDESTROY, wparam, lparam⟩ <;>
            simp [hh, hr]

/-- Witness for `subclass_proc_ncdestroy_uninstall`: delivering `NCDESTROY`
to a dispatcher with a null ref-data pointer (no handler could have matched)
still records the `RemoveWindowSubclass` call with the invoked id 3. -/
theorem subclass_proc_ncdestroy_uninstall_witness :
    OsCall.removeWindowSubclass 9 3 ∈
      (subclass_proc (fun _ _ => 0) 9 WM_NCDESTROY 1 2 3 none).2 := by
  exact (subclass_proc_ncdestroy_uninstall (fun _ _ => 0) 9 WM_NCDESTROY
    1 2 3 none).mpr rfl

/-! ### Typed message union

`gui/events.rs` stores handlers over the typed union `msg::Wm`; the `msg`
module itself is not part of the sampled source. -/

/-- Modelled from the spec: the `msg::Wm` tagged union (§3 Message model) —
one variant per supported message id, carrying the payload decoded from
`(wparam, lparam)`. The decoded payload is represented by an opaque token
since the claims concern the return conventions, not the payload fields. -/
inductive WmMsg where
  | activate (p : Nat)
  | activateApp (p : Nat)
  | close (p : Nat)
  | command (p : Nat)
  | create (p : Nat)
  | ctlColorBtn (p : Nat)
  | ctlColorDlg (p : Nat)
  | ctlColorEdit (p : Nat)
  | ctlColorListBox (p : Nat)
  | ctlColorScrollBar (p : Nat)
  | ctlColorStatic (p : Nat)
  | destroy (p : Nat)
  | dropFiles (p : Nat)
  | initDialog (p : Nat)
  | initMenuPopup (p : Nat)
  | notify (p : Nat)
  | null (p : Nat)
  | size (p : Nat)
  | sizing (p : Nat)
  deriving DecidableEq, Repr

/-- The panic message of the internal-mismatch branch generated by the
`wm_ret_convt!` / `wm_ret_isize!` macros in `events.rs`. -/
def internalBugMsg : String := "Event incorrectly handled internally. This is a bug."

/-- A stored handler: the boxed `FnMut(msg::Wm) -> isize` closure. A Rust
closure may panic (`Except.error`) and may issue OS calls as side effects,
so the embedded handler returns the reply word together with its trace. -/
def MsgHandler : Type := WmMsg → Except String (Int × List OsCall)

/-! ### Event table (`gui/events.rs`, struct `Events`)

The heap-shared `HashMap<co::WM, Box<dyn FnMut ...>>` is embedded as an
association list with map-update semantics: `HashMap::insert` replaces any
existing binding for the key. -/

/-- The event table `Events` of `events.rs`. -/
structure Events where
  msgs : List (Nat × MsgHandler)

/-- `Events::new`: a fresh empty table. -/
def Events.new : Events := ⟨[]⟩

/-- `Events::wm` (`events.rs` lines 119–124): insert the handler for the
given message id; `HashMap::insert` semantics, replacing any previous
binding for that id. -/
def Events.wm (e : Events) (ident : Nat) (func : MsgHandler) : Events :=
  ⟨(ident, func) :: e.msgs.filter (fun kv => kv.1 != ident)⟩

/-- Handler stored for a message id, if any. -/
def Events.lookup (e : Events) (ident : Nat) : Option MsgHandler :=
  List.lookup ident e.msgs

/-- Run the stored handler for `ident` on message `m`, if one is stored. -/
def Events.handle (e : Events) (ident : Nat) (m : WmMsg) :
    Option (Except String (Int × List OsCall)) :=
  (e.lookup ident).map (fun f => f m)

/-! ### Return-value conversions (`as_isize!`, `from_handle!`) -/

/-- `as_isize!` applied to a Rust `bool`: `b as isize` is 1 for `true`,
0 for `false`. -/
def as_isize_bool (b : Bool) : Int := if b then 1 else 0

/-- `as_isize!` applied to a Rust `i32`: `v as isize` sign-extends the
32-bit value to the 64-bit word, which preserves its mathematical value. -/
def as_isize_i32 (v : Int) : Int := v

/-- `as_isize!` applied to a Rust `isize`: the identity cast. -/
def as_isize_isize (v : Int) : Int := v

/-- `from_handle!`: `handle.as_ptr() as isize`, the raw handle value. -/
def from_handle (h : Nat) : Int := Int.ofNat h

/-! ### Typed registration operations (`events.rs` lines 126–201)

Each is the expansion of `wm_ret_isize!` (void-return family: run the
handler, ignore its return, reply a fixed word) or `wm_ret_convt!`
(value-return family: convert the handler's typed return). The handler
argument is `Nat → R × List OsCall`: the typed payload in, the typed
return value and the closure's OS-call side effects out. -/

/-- `Events::wm_activate` — void-return, replies 0. -/
def Events.wm_activate (e : Events) (func : Nat → Unit × List OsCall) : Events :=
  e.wm WM_ACTIVATE (fun p => match p with
    | WmMsg.activate q => Except.ok (0, (func q).2)
    | _ => Except.error internalBugMsg)

/-- `Events::wm_activate_app` — void-return, replies 0. -/
def Events.wm_activate_app (e : Events) (func : Nat → Unit × List OsCall) : Events :=
  e.wm WM_ACTIVATEAPP (fun p => match p with
    | WmMsg.activateApp q => Except.ok (0, (func q).2)
    | _ => Except.error internalBugMsg)

/-- `Events::wm_close` — void-return, replies 0. -/
def Events.wm_close (e : Events) (func : Nat → Unit × List OsCall) : Events :=
  e.wm WM_CLOSE (fun p => match p with
    | WmMsg.close q => Except.ok (0, (func q).2)
    | _ => Except.error internalBugMsg)

/-- `Events::wm_command` — void-return, replies 0. -/
def Events.wm_command (e : Events) (func : Nat → Unit × List OsCall) : Events :=
  e.wm WM_COMMAND (fun p => match p with
    | WmMsg.command q => Except.ok (0, (func q).2)
    | _ => Except.error internalBugMsg)

/-- `Events::wm_create` — value-return `i32`, converted by `as_isize!`. -/
def Events.wm_create (e : Events) (func : Nat → Int × List OsCall) : Events :=
  e.wm WM_CREATE (fun p => match p with
    | WmMsg.create q => Except.ok (as_isize_i32 (func q).1, (func q).2)
    | _ => Except.error internalBugMsg)

/-- `Events::wm_ctl_color_btn` — value-return `HDC`, converted by
`from_handle!`. -/
def Events.wm_ctl_color_btn (e : Events) (func : Nat → Nat × List OsCall) : Events :=
  e.wm WM_CTLCOLORBTN (fun p => match p with
    | WmMsg.ctlColorBtn q => Except.ok (from_handle (func q).1, (func q).2)
    | _ => Except.error internalBugMsg)

/-- `Events::wm_ctl_color_dlg` — value-return `HDC`, converted by
`from_handle!`. -/
def Events.wm_ctl_color_dlg (e : Events) (func : Nat → Nat × List OsCall) : Events :=
  e.wm WM_CTLCOLORDLG (fun p => match p with
    | WmMsg.ctlColorDlg q => Except.ok (from_handle (func q).1, (func q).2)
    | _ => Except.error internalBugMsg)

/-- `Events::wm_ctl_color_edit` — value-return `HDC`, converted by
`from_handle!`. -/
def Events.wm_ctl_color_edit (e : Events) (func : Nat → Nat × List OsCall) : Events :=
  e.wm WM_CTLCOLOREDIT (fun p => match p with
    | WmMsg.ctlColorEdit q => Except.ok (from_handle (func q).1, (func q).2)
    | _ => Except.error internalBugMsg)

/-- `Events::wm_ctl_color_list_box` — value-return `HDC`, converted by
`from_handle!`. -/
def Events.wm_ctl_color_list_box (e : Events) (func : Nat → Nat × List OsCall) : Events :=
  e.wm WM_CTLCOLORLISTBOX (fun p => match p with
    | WmMsg.ctlColorListBox q => Except.ok (from_handle (func q).1, (func q).2)
    | _ => Except.error internalBugMsg)

/-- `Events::wm_ctl_color_scroll_bar` — value-return `HDC`, converted by
`from_handle!`. -/
def Events.wm_ctl_color_scroll_bar (e : Events) (func : Nat → Nat × List OsCall) : Events :=
  e.wm WM_CTLCOLORSCROLLBAR (fun p => match p with
    | WmMsg.ctlColorScrollBar q => Except.ok (from_handle (func q).1, (func q).2)
    | _ => Except.error internalBugMsg)

/-- `Events::wm_ctl_color_static` — value-return `HDC`, converted by
`from_handle!`. -/
def Events.wm_ctl_color_static (e : Events) (func : Nat → Nat × List OsCall) : Events :=
  e.wm WM_CTLCOLORSTATIC (fun p => match p with
    | WmMsg.ctlColorStatic q => Except.ok (from_handle (func q).1, (func q).2)
    | _ => Except.error internalBugMsg)

/-- `Events::wm_destroy` — void-return, replies 0. -/
def Events.wm_destroy (e : Events) (func : Nat → Unit × List OsCall) : Events :=
  e.wm WM_DESTROY (fun p => match p with
    | WmMsg.destroy q => Except.ok (0, (func q).2)
    | _ => Except.error internalBugMsg)

/-- `Events::wm_drop_files` — void-return, replies 0. -/
def Events.wm_drop_files (e : Events) (func : Nat → Unit × List OsCall) : Events :=
  e.wm WM_DROPFILES (fun p => match p with
    | WmMsg.dropFiles q => Except.ok (0, (func q).2)
    | _ => Except.error internalBugMsg)

/-- `Events::wm_init_dialog` — value-return `bool`, converted by
`as_isize!`. -/
def Events.wm_init_dialog (e : Events) (func : Nat → Bool × List OsCall) : Events :=
  e.wm WM_INITDIALOG (fun p => match p with
    | WmMsg.initDialog q => Except.ok (as_isize_bool (func q).1, (func q).2)
    | _ => Except.error internalBugMsg)

/-- `Events::wm_init_menu_popup` — void-return, replies 0. -/
def Events.wm_init_menu_popup (e : Events) (func : Nat → Unit × List OsCall) : Events :=
  e.wm WM_INITMENUPOPUP (fun p => match p with
    | WmMsg.initMenuPopup q => Except.ok (0, (func q).2)
    | _ => Except.error internalBugMsg)

/-- `Events::wm_notify` — value-return `isize`, converted by `as_isize!`. -/
def Events.wm_notify (e : Events) (func : Nat → Int × List OsCall) : Events :=
  e.wm WM_NOTIFY (fun p => match p with
    | WmMsg.notify q => Except.ok (as_isize_isize (func q).1, (func q).2)
    | _ => Except.error internalBugMsg)

/-- `Events::wm_null` — void-return, replies 0. -/
def Events.wm_null (e : Events) (func : Nat → Unit × List OsCall) : Events :=
  e.wm WM_NULL (fun p => match p with
    | WmMsg.null q => Except.ok (0, (func q).2)
    | _ => Except.error internalBugMsg)

/-- `Events::wm_size` — void-return, replies 0. -/
def Events.wm_size (e : Events) (func : Nat → Unit × List OsCall) : Events :=
  e.wm WM_SIZE (fun p => match p with
    | WmMsg.size q => Except.ok (0, (func q).2)
    | _ => Except.error internalBugMsg)

/-- `Events::wm_sizing` — void-return, replies the fixed word 1. -/
def Events.wm_sizing (e : Events) (func : Nat → Unit × List OsCall) : Events :=
  e.wm WM_SIZING (fun p => match p with
    | WmMsg.sizing q => Except.ok (1, (func q).2)
    | _ => Except.error internalBugMsg)

/-- After `wm`, the handler stored for the inserted id is the inserted one. -/
theorem Events.handle_wm (e : Events) (ident : Nat) (f : MsgHandler) (m : WmMsg) :
    (e.wm ident f).handle ident m = some (f m) := by
  simp [Events.handle, Events.lookup, Events.wm, List.lookup]

/-- C9: each typed registration installs a closure that encodes the
handler's result per the message's return convention — void-return
registrations ignore the handler's return and reply 0 (1 for `Sizing`);
value-return registrations coerce `bool` to 0/1 (`InitDialog`), `i32` by
the value-preserving sign-extending cast (`Create`, and `isize` for
`Notify`), and a device-context handle to its raw value (the `CtlColor*`
registrations). -/
theorem events_typed_return_conventions (e : Events) :
    (∀ f p, (e.wm_activate f).handle WM_ACTIVATE (WmMsg.activate p) =
      some (Except.ok (0, (f p).2))) ∧
    (∀ f p, (e.wm_activate_app f).handle WM_ACTIVATEAPP (WmMsg.activateApp p) =
      some (Except.ok (0, (f p).2))) ∧
    (∀ f p, (e.wm_close f).handle WM_CLOSE (WmMsg.close p) =
      some (Except.ok (0, (f p).2))) ∧
    (∀ f p, (e.wm_command f).handle WM_COMMAND (WmMsg.command p) =
      some (Except.ok (0, (f p).2))) ∧
    (∀ f p, (e.wm_destroy f).handle WM_DESTROY (WmMsg.destroy p) =
      some (Except.ok (0, (f p).2))) ∧
    (∀ f p, (e.wm_drop_files f).handle WM_DROPFILES (WmMsg.dropFiles p) =
      some (Except.ok (0, (f p).2))) ∧
    (∀ f p, (e.wm_init_menu_popup f).handle WM_INITMENUPOPUP (WmMsg.initMenuPopup p) =
      some (Except.ok (0, (f p).2))) ∧
    (∀ f p, (e.wm_null f).handle WM_NULL (WmMsg.null p) =
      some (Except.ok (0, (f p).2))) ∧
    (∀ f p, (e.wm_size f).handle WM_SIZE (WmMsg.size p) =
      some (Except.ok (0, (f p).2))) ∧
    (∀ f p, (e.wm_sizing f).handle WM_SIZING (WmMsg.sizing p) =
      some (Except.ok (1, (f p).2))) ∧
    (∀ f p, (e.wm_create f).handle WM_CREATE (WmMsg.create p) =
      some (Except.ok ((f p).1, (f p).2))) ∧
    (∀ f p, (e.wm_notify f).handle WM_NOTIFY (WmMsg.notify p) =
      some (Except.ok ((f p).1, (f p).2))) ∧
    (∀ f p, (e.wm_init_dialog f).handle WM_INITDIALOG (WmMsg.initDialog p) =
      some (Except.ok (if (f p).1 then 1 else 0, (f p).2))) ∧
    (∀ f p, (e.wm_ctl_color_btn f).handle WM_CTLCOLORBTN (WmMsg.ctlColorBtn p) =
      some (Except.ok (Int.ofNat (f p).1, (f p).2))) ∧
    (∀ f p, (e.wm_ctl_color_dlg f).handle WM_CTLCOLORDLG (WmMsg.ctlColorDlg p) =
      some (Except.ok (Int.ofNat (f p).1, (f p).2))) ∧
    (∀ f p, (e.wm_ctl_color_edit f).handle WM_CTLCOLOREDIT (WmMsg.ctlColorEdit p) =
      some (Except.ok (Int.ofNat (f p).1, (f p).2))) ∧
    (∀ f p, (e.wm_ctl_color_list_box f).handle WM_CTLCOLORLISTBOX (WmMsg.ctlColorListBox p) =
      some (Except.ok (Int.ofNat (f p).1, (f p).2))) ∧
    (∀ f p, (e.wm_ctl_color_scroll_bar f).handle WM_CTLCOLORSCROLLBAR (WmMsg.ctlColorScrollBar p) =
      some (Except.ok (Int.ofNat (f p).1, (f p).2))) ∧
    (∀ f p, (e.wm_ctl_color_static f).handle WM_CTLCOLORSTATIC (WmMsg.ctlColorStatic p) =
      some (Except.ok (Int.ofNat (f p).1, (f p).2))) := by
  refine ⟨?_, ?_, ?_, ?_, ?_, ?_, ?_, ?_, ?_, ?_, ?_, ?_, ?_, ?_, ?_, ?_, ?_, ?_, ?_⟩ <;>
    intro f p <;>
    simp [Events.wm_activate, Events.wm_activate_app, Events.wm_close,
      Events.wm_command, Events.wm_destroy, Events.wm_drop_files,
      Events.wm_init_menu_popup, Events.wm_null, Events.wm_size,
      Events.wm_sizing, Events.wm_create, Events.wm_notify,
      Events.wm_init_dialog, Events.wm_ctl_color_btn, Events.wm_ctl_color_dlg,
      Events.wm_ctl_color_edit, Events.wm_ctl_color_list_box,
      Events.wm_ctl_color_scroll_bar, Events.wm_ctl_color_static,
      Events.handle_wm, as_isize_bool, as_isize_i32, as_isize_isize,
      from_handle]

/-! ### Duplicate registration (`Events::wm`) -/

/-- A concrete handler replying 10, for the duplicate-registration run. -/
def dupHandlerA : MsgHandler := fun _ => Except.ok (10, [])

/-- A concrete handler replying 20, for the duplicate-registration run. -/
def dupHandlerB : MsgHandler := fun _ => Except.ok (20, [])

/-- C5 counterexample: inserting a second handler for `WM_CLOSE` into a
table that already holds one neither panics nor returns an error —
`HashMap::insert` silently replaces the binding: the insert yields a
one-entry table whose stored handler is the second one. -/
theorem events_wm_duplicate_counterexample :
    (((Events.new.wm WM_CLOSE dupHandlerA).wm WM_CLOSE dupHandlerB).handle
        WM_CLOSE (WmMsg.close 0) = some (Except.ok (20, []))) ∧
    ((Events.new.wm WM_CLOSE dupHandlerA).wm WM_CLOSE dupHandlerB).msgs.length = 1 := by
  constructor
  · simp [Events.handle_wm, dupHandlerB]
  · rfl

/-- C5 (amended): inserting a handler for an id already present in the
table silently replaces the previous binding — the duplicate registration
is accepted, and the handler subsequently stored for that id is the new
one. -/
theorem events_wm_duplicate_replaces (e : Events) (ident : Nat)
    (f g : MsgHandler) :
    ((e.wm ident f).wm ident g).lookup ident = some g := by
  simp [Events.wm, Events.lookup, List.lookup]

/-- Looking up a key distinct from the filtered-out one is unaffected by
the filtering `Events.wm` performs. -/
theorem lookup_filter_ne (a b : Nat) (hne : a ≠ b) :
    ∀ l : List (Nat × MsgHandler),
      List.lookup a (l.filter (fun kv => kv.1 != b)) = List.lookup a l
  | [] => rfl
  | (k, v) :: rest => by
      by_cases hk : k = b
      · have hab : (a == b) = false := by simpa using hne
        simp only [List.filter_cons, hk, bne_self_eq_false, cond_false,
          Bool.false_eq_true, if_false]
        rw [lookup_filter_ne a b hne rest]
        simp [List.lookup, hab]
      · have hkb : ((k, v).1 != b) = true := by simpa using hk
        simp only [List.filter_cons, hkb, if_true]
        simp only [List.lookup]
        cases h2 : (a == k) with
        | true => rfl
        | false => exact lookup_filter_ne a b hne rest

/-- C10: the untyped catch-all `Events::wm` checks nothing: for every
message id and every table state it stores the handler unconditionally (it
is a total operation over the table state, with no pre-creation or
duplicate check), and bindings for every other id are untouched. -/
theorem events_wm_unconditional_insert (e : Events) (ident : Nat)
    (f : MsgHandler) :
    (e.wm ident f).lookup ident = some f ∧
    (∀ ident₂, ident₂ ≠ ident →
      (e.wm ident f).lookup ident₂ = e.lookup ident₂) := by
  constructor
  · simp [Events.wm, Events.lookup, List.lookup]
  · intro ident₂ hne
    have h2 : (ident₂ == ident) = false := by simpa using hne
    simp only [Events.wm, Events.lookup, List.lookup, h2]
    exact lookup_filter_ne ident₂ ident hne e.msgs

/-! ### Control base (`native_control_base.rs`)

State: the control's stored handle, the parent's handle as read through
`ptr_parent_hwnd`, and whether the subclass event table is empty (the only
fact about it the lifecycle code consults). -/

/-- The state of `NativeControlBase` relevant to the lifecycle operations. -/
structure NativeControlBase where
  hwnd : Nat
  parent_hwnd : Nat
  subclass_events_empty : Bool
  deriving DecidableEq, Repr

/-- `NativeControlBase::is_parent_created`. -/
def NativeControlBase.is_parent_created (c : NativeControlBase) : Bool :=
  c.parent_hwnd != 0

/-- `NativeControlBase::on` (lines 73–80): the parent-event surface.
Panics (modelled as `Except.error`) unless both the control's handle and
the parent's handle are null; `Except.ok ()` stands for returning the
event-table reference, permitting registration. -/
def NativeControlBase.on (c : NativeControlBase) : Except String Unit :=
  if c.hwnd ≠ 0 then
    Except.error "Cannot add events after the control is created."
  else if c.is_parent_created then
    Except.error "Cannot add events after the parent window is created."
  else
    Except.ok ()

/-- `NativeControlBase::on_subclass` (lines 82–89): the subclass-event
surface, with the same checks. -/
def NativeControlBase.on_subclass (c : NativeControlBase) : Except String Unit :=
  if c.hwnd ≠ 0 then
    Except.error "Cannot add subclass events after the control is created."
  else if c.is_parent_created then
    Except.error "Cannot add subclass events after the parent window is created."
  else
    Except.ok ()

/-- The `Edit` control (`edit.rs`): its base-control state. -/
structure Edit where
  base : NativeControlBase
  deriving DecidableEq, Repr

/-- `Edit::on` (`edit.rs` lines 111–118), which re-implements the two
pre-creation checks over its base state. -/
def Edit.on (ed : Edit) : Except String Unit :=
  if ed.base.hwnd ≠ 0 then
    Except.error "Cannot add events after the control is created."
  else if ed.base.is_parent_created then
    Except.error "Cannot add events after the parent window is created."
  else
    Except.ok ()

/-- `Edit::on_subclass` (`edit.rs` lines 128–130), which delegates to the
base control. -/
def Edit.on_subclass (ed : Edit) : Except String Unit :=
  ed.base.on_subclass

/-! ### Subclass installation (`install_subclass_if_needed`)

The process-wide counter `BASE_SUBCLASS_ID` (initially 0, pre-incremented
before use) is passed explicitly. `setSub` models the OS's
`SetWindowSubclass`, returning a `WinResult`. -/

/-- `NativeControlBase::install_subclass_if_needed` (lines 142–156):
when the subclass event table is non-empty, bump the global counter, use
its new value as the subclass id and call `SetWindowSubclass` with the
control's own address as the ref-data word. Returns the call's result, the
new counter value and the trace. -/
def install_subclass_if_needed (setSub : Nat → Nat → Nat → Except Nat Unit)
    (counter : Nat) (c : NativeControlBase) (self_addr : Nat) :
    Except Nat Unit × Nat × List OsCall :=
  if !c.subclass_events_empty then
    let subclass_id := counter + 1
    (setSub c.hwnd subclass_id self_addr, subclass_id,
      [OsCall.setWindowSubclass c.hwnd subclass_id self_addr])
  else
    (Except.ok (), counter, [])

/-- A sequence of installation requests (control state, control address)
threaded through the process-wide counter, accumulating the OS-call trace. -/
def runInstalls (setSub : Nat → Nat → Nat → Except Nat Unit) :
    Nat → List (NativeControlBase × Nat) → Nat × List OsCall
  | counter, [] => (counter, [])
  | counter, (c, addr) :: rest =>
      let step := install_subclass_if_needed setSub counter c addr
      let next := runInstalls setSub step.2.1 rest
      (next.1, step.2.2 ++ next.2)

/-- The subclass ids passed to `SetWindowSubclass`, in call order. -/
def issuedSubclassIds : List OsCall → List Nat
  | [] => []
  | OsCall.setWindowSubclass _ id _ :: rest => id :: issuedSubclassIds rest
  | _ :: rest => issuedSubclassIds rest

/-- How many requests in a sequence actually install (non-empty table). -/
def countInstalls (reqs : List (NativeControlBase × Nat)) : Nat :=
  reqs.countP (fun r => !r.1.subclass_events_empty)

/-! ### Dialog-child attach (`create_dlg`) -/

/-- The OS facts `create_dlg` consults: each window's class atom (the raw
`GetClassLongPtr(GCLP::ATOM)` word) and `GetDlgItem` keyed by parent
window and control id. -/
structure DlgOs where
  class_atom : Nat → Nat
  dlg_item : Nat → Nat → Except Nat Nat

/-- Outcome of a control-creation routine: a panic, a propagated OS error,
or the obtained child handle. -/
inductive CreateOutcome where
  | panicked (msg : String)
  | err (code : Nat)
  | ok (hwnd : Nat)
  deriving DecidableEq, Repr

/-- `NativeControlBase::create_dlg` (lines 123–140): precondition panics,
then the parent's class atom is read and its low 16 bits compared against
`WC_DIALOG`; on mismatch the routine panics without querying the child; on
match `GetDlgItem` is queried, errors propagate, and on success the handle
is stored and subclass dispatch installed if needed. -/
def create_dlg (os : DlgOs) (setSub : Nat → Nat → Nat → Except Nat Unit)
    (counter : Nat) (c : NativeControlBase) (self_addr ctrl_id : Nat) :
    CreateOutcome × Nat × List OsCall :=
  if c.hwnd ≠ 0 then
    (CreateOutcome.panicked "Cannot create control twice.", counter, [])
  else if !c.is_parent_created then
    (CreateOutcome.panicked "Cannot create control before parent window is created.",
      counter, [])
  else
    let parent_atom := os.class_atom c.parent_hwnd
    let tr0 := [OsCall.getClassLongPtrAtom c.parent_hwnd]
    if parent_atom % 2 ^ 16 ≠ WC_DIALOG then
      (CreateOutcome.panicked "Parent window is not a dialog, cannot create control.",
        counter, tr0)
    else
      match os.dlg_item c.parent_hwnd ctrl_id with
      | Except.error e =>
          (CreateOutcome.err e, counter,
            tr0 ++ [OsCall.getDlgItem c.parent_hwnd ctrl_id])
      | Except.ok h =>
          let inst := install_subclass_if_needed setSub counter
            { c with hwnd := h } self_addr
          match inst.1 with
          | Except.error e =>
              (CreateOutcome.err e, inst.2.1,
                tr0 ++ [OsCall.getDlgItem c.parent_hwnd ctrl_id] ++ inst.2.2)
          | Except.ok _ =>
              (CreateOutcome.ok h, inst.2.1,
                tr0 ++ [OsCall.getDlgItem c.parent_hwnd ctrl_id] ++ inst.2.2)

/-- `NativeControlBase::create_window` (lines 91–121): precondition panics,
then `CreateWindowEx` (whose outcome is the `createEx` argument; the
class/text/position/style parameters are cosmetic and out of scope); the
returned handle is stored and subclass dispatch installed if needed. -/
def create_window (createEx : Except Nat Nat)
    (setSub : Nat → Nat → Nat → Except Nat Unit) (counter : Nat)
    (c : NativeControlBase) (self_addr : Nat) :
    CreateOutcome × Nat × List OsCall :=
  if c.hwnd ≠ 0 then
    (CreateOutcome.panicked "Cannot create control twice.", counter, [])
  else if !c.is_parent_created then
    (CreateOutcome.panicked "Cannot create control before parent window is created.",
      counter, [])
  else
    match createEx with
    | Except.error e => (CreateOutcome.err e, counter, [])
    | Except.ok h =>
        let inst := install_subclass_if_needed setSub counter
          { c with hwnd := h } self_addr
        match inst.1 with
        | Except.error e => (CreateOutcome.err e, inst.2.1, inst.2.2)
        | Except.ok _ => (CreateOutcome.ok h, inst.2.1, inst.2.2)

/-! ### Modal dialog host (`dialog_modal.rs`) -/

/-- The `DialogModal` host state: handle, user table, privileged table. -/
structure DialogModal where
  hwnd : Nat
  user_events : Events
  privileged_events : Events

/-- The `INITDIALOG` closure body of `default_message_handlers`: centers
the dialog over its owner and returns `true`. -/
def dm_init_dialog_handler (d_hwnd : Nat) : Nat → Bool × List OsCall :=
  fun _ => (true, [OsCall.centerInParent d_hwnd])

/-- The `CLOSE` closure body of `default_message_handlers`: calls
`EndDialog(DLGID::CANCEL as isize)`, ignoring its error. -/
def dm_close_handler (d_hwnd : Nat) : Nat → Unit × List OsCall :=
  fun _ => ((), [OsCall.endDialog d_hwnd (Int.ofNat DLGID_CANCEL)])

/-- `DialogModal::default_message_handlers` (`dialog_modal.rs` lines
55–69): registers the `INITDIALOG` handler on the *privileged* table and
the `CLOSE` handler on the *user* table. -/
def DialogModal.default_message_handlers (d : DialogModal) : DialogModal :=
  { d with
    privileged_events :=
      d.privileged_events.wm_init_dialog (dm_init_dialog_handler d.hwnd),
    user_events := d.user_events.wm_close (dm_close_handler d.hwnd) }

/-- First `EndDialog` result recorded in a trace, if any. -/
def firstEndDialogResult : List OsCall → Option Int
  | [] => none
  | OsCall.endDialog _ r :: _ => some r
  | _ :: rest => firstEndDialogResult rest

/-- Modelled from the spec: `DialogBase::dialog_box_param` (the module
`dialog_base.rs` is not in the sampled source). Per §4.4 a `DialogModal`
is constructed with fresh tables and `default_message_handlers` installed;
the window procedure consults the privileged table first, then the user
table; the modal loop started by `DialogBoxParam` ends when a handler
calls `EndDialog`, and `show_modal` returns `Ok` of that result. This
definition gives `show_modal`'s outcome when the OS delivers `WM_CLOSE`. -/
def show_modal_close_outcome (hwnd : Nat) : Option Int :=
  let d := DialogModal.default_message_handlers ⟨hwnd, Events.new, Events.new⟩
  let trPriv :=
    match d.privileged_events.handle WM_CLOSE (WmMsg.close 0) with
    | some (Except.ok pr) => pr.2
    | _ => []
  let trUser :=
    match d.user_events.handle WM_CLOSE (WmMsg.close 0) with
    | some (Except.ok pr) => pr.2
    | _ => []
  firstEndDialogResult (trPriv ++ trUser)

/-! ### Registry-key releaser (`advapi/guard.rs`) -/

/-- Modelled from the spec: the raw value of the predefined root
`HKEY::CLASSES_ROOT` (documented OS constant 0x80000000); the `HKEY`
constants live in `advapi/decl`, outside the sampled source. -/
def HKEY_CLASSES_ROOT : Nat := 0x80000000

/-- Modelled from the spec: the raw value of `HKEY::PERFORMANCE_NLSTEXT`
(documented OS constant 0x80000060), the upper end of the predefined
range. -/
def HKEY_PERFORMANCE_NLSTEXT : Nat := 0x80000060

/-- `Handle::as_opt`: `None` for the null handle, `Some` otherwise. -/
def hkey_as_opt (h : Nat) : Option Nat :=
  if h = 0 then none else some h

/-- The RAII wrapper `HkeyGuard`. -/
structure HkeyGuard where
  hkey : Nat
  deriving DecidableEq, Repr

/-- `impl Drop for HkeyGuard` (`guard.rs` lines 14–22): release the key
via `RegCloseKey` unless it is null or a predefined root, i.e. unless its
raw value lies in `[CLASSES_ROOT, PERFORMANCE_NLSTEXT]`. Returns the trace
of release calls. -/
def HkeyGuard.drop (g : HkeyGuard) : List OsCall :=
  match hkey_as_opt g.hkey with
  | none => []
  | some h =>
      if h < HKEY_CLASSES_ROOT ∨ h > HKEY_PERFORMANCE_NLSTEXT then
        [OsCall.regCloseKey h]
      else
        []

/-! ### Theorems on the registration surface, creation, installation -/

/-- C3: the registration surfaces `on` / `on_subclass` of the control base
and of `Edit` panic when the control's handle is non-null, panic when the
parent's handle is non-null, and return the event table exactly when both
handles are null. -/
theorem control_registration_pre_creation (c : NativeControlBase) (ed : Edit) :
    (c.hwnd ≠ 0 →
      c.on = Except.error "Cannot add events after the control is created.") ∧
    (c.hwnd = 0 → c.parent_hwnd ≠ 0 →
      c.on = Except.error "Cannot add events after the parent window is created.") ∧
    (c.on = Except.ok () ↔ c.hwnd = 0 ∧ c.parent_hwnd = 0) ∧
    (c.on_subclass = Except.ok () ↔ c.hwnd = 0 ∧ c.parent_hwnd = 0) ∧
    (ed.on = Except.ok () ↔ ed.base.hwnd = 0 ∧ ed.base.parent_hwnd = 0) ∧
    (ed.on_subclass = Except.ok () ↔ ed.base.hwnd = 0 ∧ ed.base.parent_hwnd = 0) := by
  refine ⟨?_, ?_, ?_, ?_, ?_, ?_⟩
  · intro h
    simp [NativeControlBase.on, h]
  · intro h hp
    simp [NativeControlBase.on, NativeControlBase.is_parent_created, h, hp]
  · by_cases h1 : c.hwnd = 0 <;> by_cases h2 : c.parent_hwnd = 0 <;>
      simp [NativeControlBase.on, NativeControlBase.is_parent_created, h1, h2]
  · by_cases h1 : c.hwnd = 0 <;> by_cases h2 : c.parent_hwnd = 0 <;>
      simp [NativeControlBase.on_subclass, NativeControlBase.is_parent_created,
        h1, h2]
  · by_cases h1 : ed.base.hwnd = 0 <;> by_cases h2 : ed.base.parent_hwnd = 0 <;>
      simp [Edit.on, NativeControlBase.is_parent_created, h1, h2]
  · by_cases h1 : ed.base.hwnd = 0 <;> by_cases h2 : ed.base.parent_hwnd = 0 <;>
      simp [Edit.on_subclass, NativeControlBase.on_subclass,
        NativeControlBase.is_parent_created, h1, h2]

/-- Witness for `control_registration_pre_creation`: with both handles
null, `on` returns the event table. -/
theorem control_registration_pre_creation_witness :
    ({ hwnd := 0, parent_hwnd := 0, subclass_events_empty := true } :
      NativeControlBase).on = Except.ok () := by
  exact (control_registration_pre_creation ⟨0, 0, true⟩ ⟨⟨0, 0, true⟩⟩).2.2.1.mpr
    ⟨rfl, rfl⟩

/-- `issuedSubclassIds` distributes over trace concatenation. -/
theorem issuedSubclassIds_append (l1 l2 : List OsCall) :
    issuedSubclassIds (l1 ++ l2) = issuedSubclassIds l1 ++ issuedSubclassIds l2 := by
  induction l1 with
  | nil => rfl
  | cons a rest ih => cases a <;> simp [issuedSubclassIds, ih]

/-- Running a sequence of installation requests from counter value `k`
issues exactly the ids `k+1, k+2, …`, one per request with a non-empty
subclass table, and leaves the counter advanced by that count. -/
theorem runInstalls_ids (setSub : Nat → Nat → Nat → Except Nat Unit) :
    ∀ (reqs : List (NativeControlBase × Nat)) (counter : Nat),
      issuedSubclassIds (runInstalls setSub counter reqs).2 =
        List.range' (counter + 1) (countInstalls reqs) ∧
      (runInstalls setSub counter reqs).1 = counter + countInstalls reqs
  | [], counter => by
      simp [runInstalls, issuedSubclassIds, countInstalls]
  | (c, addr) :: rest, counter => by
      by_cases hce : c.subclass_events_empty
      · have ih := runInstalls_ids setSub rest counter
        simp only [runInstalls, install_subclass_if_needed, hce,
          Bool.not_true, Bool.false_eq_true, if_false, List.nil_append]
        constructor
        · rw [ih.1]
          simp [countInstalls, hce, List.countP_cons]
        · rw [ih.2]
          simp [countInstalls, hce, List.countP_cons]
      · have ih := runInstalls_ids setSub rest (counter + 1)
        simp only [runInstalls, install_subclass_if_needed, hce,
          Bool.not_false, if_true]
        constructor
        · rw [issuedSubclassIds_append, ih.1]
          simp only [issuedSubclassIds]
          have hcount : countInstalls ((c, addr) :: rest) =
              countInstalls rest + 1 := by
            simp [countInstalls, hce, List.countP_cons]
          rw [hcount, List.range'_succ]
          simp [Nat.add_comm, Nat.add_assoc, Nat.add_left_comm]
        · rw [ih.2]
          have hcount : countInstalls ((c, addr) :: rest) =
              countInstalls rest + 1 := by
            simp [countInstalls, hce, List.countP_cons]
          rw [hcount]
          omega

/-- C8: `SetWindowSubclass` is invoked if and only if the subclass table is
non-empty; the call uses the counter's next value as id and the control's
address as ref-data, advancing the counter; from the initial counter 0 a
sequence of installations receives exactly the ids `1, 2, …`, which are
strictly increasing (each id greater than all previously issued ones);
and after either successful creation path (`create_window` or
`create_dlg`), a `SetWindowSubclass` call appears in the trace if and
only if the subclass table is non-empty. -/
theorem subclass_install_spec (setSub : Nat → Nat → Nat → Except Nat Unit)
    (counter : Nat) (c : NativeControlBase) (addr : Nat) (os : DlgOs)
    (ctrl_id : Nat) :
    ((∃ hw id rd, OsCall.setWindowSubclass hw id rd ∈
        (install_subclass_if_needed setSub counter c addr).2.2) ↔
      c.subclass_events_empty = false) ∧
    (c.subclass_events_empty = false →
      install_subclass_if_needed setSub counter c addr =
        (setSub c.hwnd (counter + 1) addr, counter + 1,
          [OsCall.setWindowSubclass c.hwnd (counter + 1) addr])) ∧
    (c.subclass_events_empty = true →
      install_subclass_if_needed setSub counter c addr =
        (Except.ok (), counter, [])) ∧
    (∀ reqs, issuedSubclassIds (runInstalls setSub 0 reqs).2 =
      List.range' 1 (countInstalls reqs)) ∧
    (∀ reqs, (issuedSubclassIds (runInstalls setSub 0 reqs).2).Pairwise (· < ·)) ∧
    (∀ h2, c.hwnd = 0 → c.parent_hwnd ≠ 0 →
      ((∃ hw id rd, OsCall.setWindowSubclass hw id rd ∈
          (create_window (Except.ok h2) setSub counter c addr).2.2) ↔
        c.subclass_events_empty = false)) ∧
    (∀ h2, c.hwnd = 0 → c.parent_hwnd ≠ 0 →
      os.class_atom c.parent_hwnd % 65536 = WC_DIALOG →
      os.dlg_item c.parent_hwnd ctrl_id = Except.ok h2 →
      ((∃ hw id rd, OsCall.setWindowSubclass hw id rd ∈
          (create_dlg os setSub counter c addr ctrl_id).2.2) ↔
        c.subclass_events_empty = false)) := by
  refine ⟨?_, ?_, ?_, ?_, ?_, ?_, ?_⟩
  · by_cases hce : c.subclass_events_empty <;>
      simp [install_subclass_if_needed, hce]
  · intro h
    simp [install_subclass_if_needed, h]
  · intro h
    simp [install_subclass_if_needed, h]
  · intro reqs
    simpa using (runInstalls_ids setSub reqs 0).1
  · intro reqs
    have h := (runInstalls_ids setSub reqs 0).1
    rw [h]
    exact List.pairwise_lt_range' _ _
  · intro h2 hc hp
    unfold create_window
    by_cases hce : c.subclass_events_empty <;>
      cases hinst : (install_subclass_if_needed setSub counter
          { c with hwnd := h2 } addr).1 <;>
        simp [hc, hp, NativeControlBase.is_parent_created,
          install_subclass_if_needed, hce] at hinst ⊢ <;>
      exact ⟨h2, counter + 1, addr, by rw [hinst]; simp⟩
  · intro h2 hc hp hatom hdlg
    unfold create_dlg
    rw [hdlg]
    by_cases hce : c.subclass_events_empty <;>
      cases hinst : (install_subclass_if_needed setSub counter
          { c with hwnd := h2 } addr).1 <;>
        simp [hc, hp, NativeControlBase.is_parent_created, hatom,
          install_subclass_if_needed, hce] at hinst ⊢ <;>
      exact ⟨h2, counter + 1, addr, by rw [hinst]; simp⟩

/-- Witness for `subclass_install_spec`: a control with a non-empty
subclass table and counter 0 is installed with subclass id 1 and its own
address 77 as ref-data. -/
theorem subclass_install_spec_witness :
    install_subclass_if_needed (fun _ _ _ => Except.ok ()) 0 ⟨4, 2, false⟩ 77 =
      (Except.ok (), 1, [OsCall.setWindowSubclass 4 1 77]) := by
  exact (subclass_install_spec (fun _ _ _ => Except.ok ()) 0 ⟨4, 2, false⟩ 77
    ⟨fun _ => 0, fun _ _ => Except.ok 0⟩ 0).2.1 rfl

/-- C6: with the creation preconditions satisfied, `create_dlg` panics with
the "parent is not a dialog" message and issues no `GetDlgItem` call when
the parent's (truncated) class atom differs from `WC_DIALOG`; when the atom
matches, the child handle is queried by control id through `GetDlgItem`,
whose failure propagates as an error result. -/
theorem create_dlg_dialog_sentinel (os : DlgOs)
    (setSub : Nat → Nat → Nat → Except Nat Unit) (counter : Nat)
    (c : NativeControlBase) (addr ctrl_id : Nat)
    (hc : c.hwnd = 0) (hp : c.parent_hwnd ≠ 0) :
    (os.class_atom c.parent_hwnd % 2 ^ 16 ≠ WC_DIALOG →
      (create_dlg os setSub counter c addr ctrl_id).1 =
        CreateOutcome.panicked "Parent window is not a dialog, cannot create control." ∧
      ∀ p i, OsCall.getDlgItem p i ∉ (create_dlg os setSub counter c addr ctrl_id).2.2) ∧
    (os.class_atom c.parent_hwnd % 2 ^ 16 = WC_DIALOG →
      OsCall.getDlgItem c.parent_hwnd ctrl_id ∈
        (create_dlg os setSub counter c addr ctrl_id).2.2 ∧
      ∀ e, os.dlg_item c.parent_hwnd ctrl_id = Except.error e →
        (create_dlg os setSub counter c addr ctrl_id).1 = CreateOutcome.err e) := by
  constructor
  · intro hatom
    have hatom2 : ¬(os.class_atom c.parent_hwnd % 65536 = WC_DIALOG) := by
      simpa using hatom
    unfold create_dlg
    simp [hc, hp, NativeControlBase.is_parent_created, hatom2]
  · intro hatom
    have hatom2 : os.class_atom c.parent_hwnd % 65536 = WC_DIALOG := by
      simpa using hatom
    unfold create_dlg
    cases hdlg : os.dlg_item c.parent_hwnd ctrl_id with
    | error e =>
        constructor
        · simp [hc, hp, NativeControlBase.is_parent_created, hatom2]
        · intro e2 he2
          injection he2 with he
          subst he
          simp [hc, hp, NativeControlBase.is_parent_created, hatom2]
    | ok h =>
        constructor
        · cases hinst : (install_subclass_if_needed setSub counter
              { c with hwnd := h } addr).1 <;>
            simp [hc, hp, NativeControlBase.is_parent_created, hatom2, hinst]
        · intro e2 he2
          simp at he2

/-- Witness for `create_dlg_dialog_sentinel`: attaching under a parent
whose class atom is 7 (not the dialog sentinel) panics with the
"parent is not a dialog" message. -/
theorem create_dlg_dialog_sentinel_witness :
    (create_dlg ⟨fun _ => 7, fun _ _ => Except.ok 99⟩
        (fun _ _ _ => Except.ok ()) 0 ⟨0, 3, true⟩ 5 10).1 =
      CreateOutcome.panicked "Parent window is not a dialog, cannot create control." := by
  exact ((create_dlg_dialog_sentinel ⟨fun _ => 7, fun _ _ => Except.ok 99⟩
    (fun _ _ _ => Except.ok ()) 0 ⟨0, 3, true⟩ 5 10 rfl (by decide)).1 (by decide)).1

/-- C7: dropping an `HkeyGuard` calls `RegCloseKey` exactly once on the
wrapped handle if and only if the handle is non-null and its raw value
lies outside the closed interval `[CLASSES_ROOT, PERFORMANCE_NLSTEXT]`;
for a null handle or a predefined root in that range, drop performs no
release call. -/
theorem hkey_guard_drop_spec (g : HkeyGuard) :
    (g.drop.count (OsCall.regCloseKey g.hkey) =
      if g.hkey ≠ 0 ∧
          ¬(HKEY_CLASSES_ROOT ≤ g.hkey ∧ g.hkey ≤ HKEY_PERFORMANCE_NLSTEXT)
        then 1 else 0) ∧
    (g.hkey ≠ 0 →
      ¬(HKEY_CLASSES_ROOT ≤ g.hkey ∧ g.hkey ≤ HKEY_PERFORMANCE_NLSTEXT) →
      g.drop = [OsCall.regCloseKey g.hkey]) ∧
    ((g.hkey = 0 ∨
        (HKEY_CLASSES_ROOT ≤ g.hkey ∧ g.hkey ≤ HKEY_PERFORMANCE_NLSTEXT)) →
      g.drop = []) := by
  by_cases h0 : g.hkey = 0
  · refine ⟨?_, ?_, ?_⟩
    · simp [HkeyGuard.drop, hkey_as_opt, h0]
    · intro h
      exact absurd h0 h
    · intro _
      simp [HkeyGuard.drop, hkey_as_opt, h0]
  · by_cases hr : HKEY_CLASSES_ROOT ≤ g.hkey ∧ g.hkey ≤ HKEY_PERFORMANCE_NLSTEXT
    · have hcond : ¬(g.hkey < HKEY_CLASSES_ROOT ∨
          g.hkey > HKEY_PERFORMANCE_NLSTEXT) := by omega
      refine ⟨?_, ?_, ?_⟩
      · simp [HkeyGuard.drop, hkey_as_opt, h0, hcond, hr]
      · intro _ hnr
        exact absurd hr hnr
      · intro _
        simp [HkeyGuard.drop, hkey_as_opt, h0, hcond]
    · have hcond : g.hkey < HKEY_CLASSES_ROOT ∨
          g.hkey > HKEY_PERFORMANCE_NLSTEXT := by omega
      refine ⟨?_, ?_, ?_⟩
      · simp [HkeyGuard.drop, hkey_as_opt, h0, hcond, hr]
      · intro _ _
        simp [HkeyGuard.drop, hkey_as_opt, h0, hcond]
      · intro habs
        rcases habs with h | h
        · exact absurd h h0
        · exact absurd h hr

/-- Witness for `hkey_guard_drop_spec`: dropping a guard around the
predefined root `HKEY::CURRENT_USER` (`CLASSES_ROOT + 1`) performs no
release call. -/
theorem hkey_guard_drop_spec_witness :
    (HkeyGuard.mk (HKEY_CLASSES_ROOT + 1)).drop = [] := by
  exact (hkey_guard_drop_spec ⟨HKEY_CLASSES_ROOT + 1⟩).2.2
    (Or.inr ⟨by simp, by decide⟩)

/-! ### Theorems on the modal dialog host -/

/-- C4 counterexample: after `default_message_handlers` on fresh tables,
the *privileged* table holds no `CLOSE` handler — the `CLOSE` handler was
registered on the *user* table. -/
theorem dialog_modal_close_handler_table_counterexample :
    ((DialogModal.default_message_handlers
        ⟨7, Events.new, Events.new⟩).privileged_events.lookup WM_CLOSE = none) ∧
    ((DialogModal.default_message_handlers
        ⟨7, Events.new, Events.new⟩).user_events.lookup WM_CLOSE).isSome = true := by
  exact ⟨rfl, rfl⟩

/-- C4 (amended): the privileged table carries the `INITDIALOG` handler
(centering the dialog over its owner and replying `true` = 1), the *user*
table carries the `CLOSE` handler, which calls `EndDialog` with
`DLGID::CANCEL = 2`; delivering `WM_CLOSE` therefore makes `show_modal`
return `Ok(2)`. -/
theorem dialog_modal_default_handlers_spec (d : DialogModal) (p : Nat) :
    (d.default_message_handlers.privileged_events.handle WM_INITDIALOG
        (WmMsg.initDialog p) =
      some (Except.ok (1, [OsCall.centerInParent d.hwnd]))) ∧
    (d.default_message_handlers.user_events.handle WM_CLOSE (WmMsg.close p) =
      some (Except.ok (0, [OsCall.endDialog d.hwnd 2]))) ∧
    show_modal_close_outcome d.hwnd = some 2 := by
  exact ⟨rfl, rfl, rfl⟩

end Winsafe
